import Mathlib

/-!
Verification development for the Ziwei chart-synthesis / almanac service.

The core service code (ZiweiService, AlmanacService) is embedded shallowly:
pure functions become Lean functions, the fallible pipeline becomes
`Except String`-valued functions, and the external collaborators
(IztroService, Tyme4tsService, the tyme4ts calendar library) — whose
implementations live outside the embedded sources — are passed in as
function parameters, or, where the specification pins their behaviour,
modelled from the specification (each such definition says so in its doc
comment).
-/

set_option linter.unusedVariables false

deriving instance DecidableEq for Except

namespace Ziwei
/-- A palace of the natal chart: name, ring position (1-12), and the ordered
list of star names occupying it, as produced by the chart-primitive
collaborator and consumed read-only by the core. -/
structure Palace where
  name : String
  position : Int
  stars : List String
deriving DecidableEq

/-- A luck period: an age range (inclusive `startAge`, exclusive `endAge`)
bound to a governing palace. -/
structure LuckPeriod where
  startAge : Int
  endAge : Int
  palace : String
deriving DecidableEq

/-- A lunar calendar moment, as produced by the calendar collaborator. -/
structure LunarDate where
  year : Int
  month : Int
  day : Int
deriving DecidableEq

/-- The period-containment test of `generateLuckPeriods`:
`age >= period.startAge && age < period.endAge`. -/
def inPeriod (age : Int) (p : LuckPeriod) : Bool :=
  decide (p.startAge ≤ age) && decide (age < p.endAge)

/-- The active-major-period selection inside `generateLuckPeriods`:
`majorPeriods.find(period => age >= period.startAge && age < period.endAge)
 || majorPeriods[0]`.  A JavaScript `undefined` (empty list, no match)
becomes `none`. -/
def selectCurrentMajor (majorPeriods : List LuckPeriod) (age : Int) :
    Option LuckPeriod :=
  match majorPeriods.find? (inPeriod age) with
  | some p => some p
  | none => majorPeriods.head?

/-- The 8-entry compass-direction table of `getPalaceDirection`. -/
def directions : List String :=
  ["正北", "东北", "正东", "东南", "正南", "西南", "正西", "西北"]

/-- `getPalaceDirection(position)`: `directions[(position - 1) % 8] || '未知'`.
JavaScript `%` is a truncating remainder (`Int.tmod`); a negative index
reads `undefined` from the array and falls back to `'未知'`. -/
def getPalaceDirection (position : Int) : String :=
  if 0 ≤ (position - 1).tmod 8 then
    directions.getD ((position - 1).tmod 8).toNat "未知"
  else "未知"

/-- The 12-entry palace-meaning table of `getPalaceSignificance`. -/
def significanceMap : List (String × String) :=
  [("命宫", "代表个人性格、先天运势、整体命运"),
   ("兄弟宫", "代表兄弟姐妹、朋友、合作伙伴关系"),
   ("夫妻宫", "代表婚姻、配偶、感情关系"),
   ("子女宫", "代表子女、晚辈、创造力"),
   ("财帛宫", "代表财富、收入、理财能力"),
   ("疾厄宫", "代表健康、疾病、体质"),
   ("迁移宫", "代表外出、旅行、人际关系"),
   ("交友宫", "代表朋友、同事、社交圈"),
   ("官禄宫", "代表事业、工作、职业发展"),
   ("田宅宫", "代表房产、家庭、祖业"),
   ("福德宫", "代表福气、精神生活、兴趣爱好"),
   ("父母宫", "代表父母、长辈、上司")]

/-- `getPalaceSignificance(palaceName)`: table lookup with the sentinel
`'未知宫位'` for an unknown name. -/
def getPalaceSignificance (palaceName : String) : String :=
  match significanceMap.find? (fun kv => kv.1 == palaceName) with
  | some kv => kv.2
  | none => "未知宫位"

/-- The canonical 12 palace names in ring-position order (position p holds
name p, 1-based), fixed by convention. -/
def canonicalPalaceNames : List String :=
  ["命宫", "兄弟宫", "夫妻宫", "子女宫", "财帛宫", "疾厄宫",
   "迁移宫", "交友宫", "官禄宫", "田宅宫", "福德宫", "父母宫"]

/-- Canonical palace name at 1-based ring position `p`. -/
def palaceNameAt (p : Nat) : String :=
  canonicalPalaceNames.getD (p - 1) "未知"

/-- 0-based index of `name` in a list of names, `none` when absent. -/
def indexIn (name : String) : List String → Option Nat
  | [] => none
  | n :: rest =>
    if n == name then some 0 else (indexIn name rest).map (· + 1)

/-- Result shape of `getTripleSquarePalaces`. -/
structure TripleSquareResult where
  originalPalace : String
  triplePalaces : List String
  squarePalaces : List String
  allRelatedPalaces : List String
deriving DecidableEq

/-- Modelled from the spec: `IztroService.getTripleSquarePalaces` is not
among the embedded sources (only its caller in `ZiweiService` is); the
specification pins it as a chart-independent constant relation on the
12-position ring — triplicate neighbours at cyclic offsets ±4
(`(p-1+4) mod 12` and `(p-1-4+12) mod 12 = (p-1+8) mod 12`), the square
neighbour at offset +6, `allRelatedPalaces` the deduplicated union
including the palace itself, and an unknown palace name failing with an
`InvalidPalaceError`. -/
def getTripleSquarePalaces (palaceName : String) :
    Except String TripleSquareResult :=
  match indexIn palaceName canonicalPalaceNames with
  | none => .error "InvalidPalaceError"
  | some idx =>
    let p := idx + 1
    let t1 := palaceNameAt ((p - 1 + 4) % 12 + 1)
    let t2 := palaceNameAt ((p - 1 + 8) % 12 + 1)
    let sq := palaceNameAt ((p - 1 + 6) % 12 + 1)
    .ok { originalPalace := palaceName,
          triplePalaces := [t1, t2],
          squarePalaces := [sq],
          allRelatedPalaces := (palaceName :: [t1, t2, sq]).dedup }

/-- A palace as enriched by the chart assembler inside
`calculateZiweiChart`. -/
structure EnrichedPalace where
  name : String
  position : Int
  stars : List String
  isVoid : Bool
  direction : String
  significance : String
deriving DecidableEq

/-- The per-palace enrichment of `calculateZiweiChart`:
`isVoid: palace.stars.length === 0`, plus the two static lookups. -/
def assemblePalace (p : Palace) : EnrichedPalace :=
  { name := p.name,
    position := p.position,
    stars := p.stars,
    isVoid := p.stars.length == 0,
    direction := getPalaceDirection p.position,
    significance := getPalaceSignificance p.name }

/-- `ziweiData.palaces.map(palace => ({...}))` from `calculateZiweiChart`. -/
def assemblePalaces (palaces : List Palace) : List EnrichedPalace :=
  palaces.map assemblePalace

/-- The fallible skeleton of `calculateZiweiChart`: the calendar conversion
and the chart-primitive computation are the two fallible collaborator
stages (passed in as `Except`-valued parameters); any failure inside the
`try` block is rethrown as `` `星盘计算失败: ${error.message}` ``, and on
success the enriched palaces are produced. -/
def calculateZiweiChart (convertToLunarDate : Except String LunarDate)
    (computeRawChart : LunarDate → Except String (List Palace)) :
    Except String (List EnrichedPalace) :=
  match convertToLunarDate with
  | .error e => .error ("星盘计算失败: " ++ e)
  | .ok lunar =>
    match computeRawChart lunar with
    | .error e => .error ("星盘计算失败: " ++ e)
    | .ok palaces => .ok (assemblePalaces palaces)

/-- The three palace-name-keyed category maps of `organizeStarInfo`
(mainStars, luckyStars, evilStars); a palace absent from a map reads the
default empty list, as a missing key does in the source records. -/
abbrev StarMaps :=
  (String → List String) × (String → List String) × (String → List String)

/-- `m[name] = [...(m[name] || []), star]` — append `star` to the entry of
`name`, leaving every other key unchanged. -/
def appendStar (m : String → List String) (name star : String) :
    String → List String :=
  fun k => if k = name then m name ++ [star] else m k

/-- The classification step of `organizeStarInfo` for one star: the
`if / else if / else if` chain over the three membership tables
(`isMainStar`, `isLuckyStar`, `isEvilStar`, supplied by the star-table
collaborator); a star in none of the tables leaves all three maps
untouched. -/
def classifyStar (isMain isLucky isEvil : String → Bool)
    (palaceName : String) (acc : StarMaps) (star : String) : StarMaps :=
  if isMain star then (appendStar acc.1 palaceName star, acc.2.1, acc.2.2)
  else if isLucky star then
    (acc.1, appendStar acc.2.1 palaceName star, acc.2.2)
  else if isEvil star then
    (acc.1, acc.2.1, appendStar acc.2.2 palaceName star)
  else acc

/-- The inner `palace.stars.forEach` loop of `organizeStarInfo`. -/
def classifyPalace (isMain isLucky isEvil : String → Bool)
    (acc : StarMaps) (palace : Palace) : StarMaps :=
  palace.stars.foldl (classifyStar isMain isLucky isEvil palace.name) acc

/-- `organizeStarInfo` restricted to its three category maps (the fourth
field, `keyStarsLocation`, is produced wholesale by the star-table
collaborator and is not part of this claim): the outer
`palaces.forEach` loop starting from three empty maps. -/
def organizeStarInfo (isMain isLucky isEvil : String → Bool)
    (palaces : List Palace) : StarMaps :=
  palaces.foldl (classifyPalace isMain isLucky isEvil)
    (fun _ => [], fun _ => [], fun _ => [])

/-- A four-transformations assignment: a star together with its
transformation type (huaquan / huake / huaxing / huaji). -/
structure Transformation where
  star : String
  type : String
deriving DecidableEq

/-- A stem-branch pillar. -/
structure Pillar where
  stem : String
  branch : String
deriving DecidableEq

/-- The four pillars (year, month, day, hour). -/
structure FourPillars where
  year : Pillar
  month : Pillar
  day : Pillar
  hour : Pillar
deriving DecidableEq

/-- A per-stem transformation report: the stem and its transformation
list. -/
structure StemReport where
  stem : String
  transformations : List Transformation
deriving DecidableEq

/-- The `TransformationInfo` result of `calculateTransformations`; the
`palaces` field is the palace-name-keyed map of transformations landing in
each palace (a name absent from the map reads the default empty list). -/
structure TransformationInfo where
  yearStem : StemReport
  dayStem : StemReport
  palaces : String → List Transformation

/-- The first palace of the chart whose star list contains `star`, if any
(a star appears in at most one palace by chart construction). -/
def locatePalace (palaces : List Palace) (star : String) : Option String :=
  (palaces.find? (fun p => p.stars.contains star)).map Palace.name

/-- Modelled from the spec: `IztroService.findTransformationPalaces` is not
among the embedded sources (only its caller in `ZiweiService` is); the
specification pins it as the best-effort palace-location step — for each
(star, type) pair scan the palaces for the star and record the pair under
the holding palace's name, silently skipping a pair whose star no palace
holds. -/
def findTransformationPalaces (ts : List Transformation)
    (palaces : List Palace) : String → List Transformation :=
  ts.foldl (fun m t =>
    match locatePalace palaces t.star with
    | some name => fun k => if k = name then m name ++ [t] else m k
    | none => m) (fun _ => [])

/-- `calculateTransformations(fourPillars, palaces)`: look up both stems'
transformation lists (via the stem-table collaborator
`getTransformationsByStem`, passed in as a parameter), report them
unconditionally per stem, and locate the concatenation of both lists in
the chart. -/
def calculateTransformations (getTransformationsByStem : String → List Transformation)
    (fourPillars : FourPillars) (palaces : List Palace) : TransformationInfo :=
  let yearStemTransformations := getTransformationsByStem fourPillars.year.stem
  let dayStemTransformations := getTransformationsByStem fourPillars.day.stem
  { yearStem := ⟨fourPillars.year.stem, yearStemTransformations⟩,
    dayStem := ⟨fourPillars.day.stem, dayStemTransformations⟩,
    palaces := findTransformationPalaces
      (yearStemTransformations ++ dayStemTransformations) palaces }

/-- A calendar instant, standing for the JavaScript `Date` read once per
call (`month` is 0-based as `Date#getMonth` is). -/
structure DateMoment where
  year : Int
  month : Int
  day : Int
  hour : Int
  minute : Int
deriving DecidableEq

/-- The six period collaborator calls of `generateLuckPeriods`, supplied by
the chart-primitive collaborator (IztroService) whose implementation lives
outside the embedded sources. -/
structure PeriodCollaborators where
  calculateMajorPeriods : LunarDate → String → List LuckPeriod
  calculateMinorPeriod : LunarDate → String → Int → LuckPeriod
  calculateAnnualPeriod : LunarDate → Int → List Palace → LuckPeriod
  calculateMonthlyPeriod : LunarDate → Int → Int → List Palace → LuckPeriod
  calculateDailyPeriod : LunarDate → DateMoment → List Palace → LuckPeriod
  calculateHourlyPeriod : LunarDate → DateMoment → List Palace → LuckPeriod

/-- The six-granularity result of `generateLuckPeriods`. -/
structure LuckPeriodsResult where
  major : List LuckPeriod
  minor : LuckPeriod
  annual : LuckPeriod
  monthly : LuckPeriod
  daily : LuckPeriod
  hourly : LuckPeriod
deriving DecidableEq

/-- `gender === 'male' ? 'man' : 'woman'`. -/
def genderToIztro (gender : String) : String :=
  if gender == "male" then "man" else "woman"

/-- `generateLuckPeriods(lunarDate, gender, palaces)` with the wall clock
made explicit: every `new Date()` read inside the source body is the single
as-of moment `now`, so the only impurity of the source is surfaced as an
input.  `age = currentYear - birthYear`; the active major period is
computed with `selectCurrentMajor`; the five markers are delegated to the
collaborator at the granularity the source passes (`currentYear` for minor
and annual, `currentYear` and `getMonth() + 1` for monthly, the full
moment for daily and hourly). -/
def generateLuckPeriods (svc : PeriodCollaborators) (now : DateMoment)
    (lunarDate : LunarDate) (gender : String) (palaces : List Palace) :
    LuckPeriodsResult :=
  let currentYear := now.year
  let birthYear := lunarDate.year
  let age := currentYear - birthYear
  let majorPeriods := svc.calculateMajorPeriods lunarDate (genderToIztro gender)
  let currentMajor := selectCurrentMajor majorPeriods age
  { major := majorPeriods,
    minor := svc.calculateMinorPeriod lunarDate (genderToIztro gender) currentYear,
    annual := svc.calculateAnnualPeriod lunarDate currentYear palaces,
    monthly := svc.calculateMonthlyPeriod lunarDate currentYear
      (now.month + 1) palaces,
    daily := svc.calculateDailyPeriod lunarDate now palaces,
    hourly := svc.calculateHourlyPeriod lunarDate now palaces }

/-- A star's four-transformations datum as returned by the star-table
collaborator `getStarTransformation`: the transformation type and its
display name. -/
structure StarTransformation where
  type : String
  name : String
deriving DecidableEq

/-- A palace as in the hard-coded mock chart of `checkPalaceTransformation`
(name and stars only). -/
structure MockPalace where
  name : String
  stars : List String
deriving DecidableEq

/-- The hard-coded three-palace mock chart of `checkPalaceTransformation`
(the source comments that a real chart should be obtained from a cache or
recomputation, and uses this fixture instead). -/
def mockPalaces : List MockPalace :=
  [⟨"命宫", ["紫微", "天府"]⟩,
   ⟨"兄弟宫", ["天机"]⟩,
   ⟨"夫妻宫", ["太阳", "太阴"]⟩]

/-- One detail row of `checkPalaceTransformation`. -/
structure TransformationDetail where
  palace : String
  star : String
  transformation : String
deriving DecidableEq

/-- The result of `checkPalaceTransformation` (`exists` is a reserved word
in Lean, hence the trailing underscore). -/
structure CheckResult where
  exists_ : Bool
  details : List TransformationDetail
deriving DecidableEq

/-- The detail-collecting loop of `checkPalaceTransformation`: walk the
hard-coded `mockPalaces`, and for each one inside the related-palace set
collect every star whose transformation (looked up through the star-table
collaborator `getStarTransformation`) has the requested type. -/
def collectDetails (getStarTransformation : String → Option StarTransformation)
    (rel : TripleSquareResult) (transformationType : String) :
    List TransformationDetail :=
  mockPalaces.flatMap (fun palace =>
    if rel.allRelatedPalaces.contains palace.name then
      palace.stars.filterMap (fun star =>
        match getStarTransformation star with
        | some t =>
          if t.type == transformationType then
            some ⟨palace.name, star, t.name⟩
          else none
        | none => none)
    else [])

/-- `checkPalaceTransformation(palaceName, transformationType)`: take the
queried palace's related palaces (three harmonies and square), run the
detail-collecting loop over the hard-coded mock chart — never a chart
computed from birth data — and report `exists` as `details.length > 0`. -/
def checkPalaceTransformation
    (getStarTransformation : String → Option StarTransformation)
    (palaceName transformationType : String) : Except String CheckResult :=
  match getTripleSquarePalaces palaceName with
  | .error e => .error e
  | .ok rel =>
    let details := collectDetails getStarTransformation rel transformationType
    .ok ⟨decide (0 < details.length), details⟩

theorem find?_append_first {α : Type} (pr : α → Bool) :
    ∀ (l1 : List α) (a : α) (l2 : List α),
      (∀ q ∈ l1, pr q = false) → pr a = true →
      (l1 ++ a :: l2).find? pr = some a := by
  intro l1
  induction l1 with
  | nil =>
    intro a l2 _ ha
    simp [List.find?_cons, ha]
  | cons q l1 ih =>
    intro a l2 hq ha
    have hqf : pr q = false := hq q (List.mem_cons_self q l1)
    simp only [List.cons_append, List.find?_cons, hqf]
    exact ih a l2 (fun r hr => hq r (List.mem_cons_of_mem q hr)) ha

/-- C1: the active major period selected by `generateLuckPeriods` is the
first period of the list whose range contains `age = currentYear - birthYear`
with inclusive lower and exclusive upper bound; when no period's range
contains the age, the first period of the list (`head?`) is returned instead
of an error being raised. -/
theorem selectCurrentMajor_first_match (currentYear birthYear : Int)
    (l1 l2 ps : List LuckPeriod) (p : LuckPeriod) :
    (∀ a : Int, ∀ q : LuckPeriod,
      inPeriod a q = true ↔ (q.startAge ≤ a ∧ a < q.endAge)) ∧
    ((∀ q ∈ l1, inPeriod (currentYear - birthYear) q = false) →
      inPeriod (currentYear - birthYear) p = true →
      selectCurrentMajor (l1 ++ p :: l2) (currentYear - birthYear) = some p) ∧
    ((∀ q ∈ ps, inPeriod (currentYear - birthYear) q = false) →
      selectCurrentMajor ps (currentYear - birthYear) = ps.head?) := by
  refine ⟨?_, ?_, ?_⟩
  · intro a q
    simp [inPeriod]
  · intro h1 hp
    unfold selectCurrentMajor
    rw [find?_append_first (inPeriod (currentYear - birthYear)) l1 p l2 h1 hp]
  · intro hall
    unfold selectCurrentMajor
    rw [List.find?_eq_none.mpr (fun q hq => by simp [hall q hq])]

/-- Concrete run of the C1 theorem: age 14 falls past the exclusive upper
bound 12 of the first period and on the inclusive lower bound 12 of the
second, so the second period is selected; with no matching period the first
is returned. -/
theorem selectCurrentMajor_first_match_witness :
    selectCurrentMajor
        [⟨2, 12, "命宫"⟩, ⟨12, 22, "兄弟宫"⟩] (2024 - 2010) =
      some ⟨12, 22, "兄弟宫"⟩ ∧
    selectCurrentMajor [⟨2, 12, "命宫"⟩] (2024 - 2010) =
      some ⟨2, 12, "命宫"⟩ := by
  constructor
  · exact (selectCurrentMajor_first_match 2024 2010
      [⟨2, 12, "命宫"⟩] [] [] ⟨12, 22, "兄弟宫"⟩).2.1
      (by decide) (by decide)
  · exact ((selectCurrentMajor_first_match 2024 2010 [] []
      [⟨2, 12, "命宫"⟩] ⟨12, 22, "兄弟宫"⟩).2.2 (by decide)).trans rfl

theorem indexIn_eq_none {name : String} :
    ∀ {l : List String}, indexIn name l = none ↔ name ∉ l := by
  intro l
  induction l with
  | nil => simp [indexIn]
  | cons n rest ih =>
    simp only [indexIn, List.mem_cons]
    by_cases h : (n == name) = true
    · have heq : n = name := by simpa using h
      simp [h, heq]
    · have hne : name ≠ n := fun he => (by simpa using h : ¬ n = name) he.symm
      simp [h, Option.map_eq_none, ih, hne]

/-- C2: for every ring position p (1-12), `getTripleSquarePalaces` applied
to the canonical palace name at p returns exactly two triplicate palaces at
positions `((p-1+4) mod 12)+1` and `((p-1-4+12) mod 12)+1` and exactly one
square palace at `((p-1+6) mod 12)+1` — a chart-independent function of
position — and an unknown palace name fails with an error. -/
theorem getTripleSquarePalaces_spec :
    (∀ q : Fin 12,
      getTripleSquarePalaces (palaceNameAt (q.val + 1)) =
        .ok { originalPalace := palaceNameAt (q.val + 1),
              triplePalaces := [palaceNameAt ((q.val + 4) % 12 + 1),
                                palaceNameAt ((q.val + 8) % 12 + 1)],
              squarePalaces := [palaceNameAt ((q.val + 6) % 12 + 1)],
              allRelatedPalaces :=
                [palaceNameAt (q.val + 1),
                 palaceNameAt ((q.val + 4) % 12 + 1),
                 palaceNameAt ((q.val + 8) % 12 + 1),
                 palaceNameAt ((q.val + 6) % 12 + 1)] }) ∧
    (∀ name : String, name ∉ canonicalPalaceNames →
      getTripleSquarePalaces name = .error "InvalidPalaceError") := by
  constructor
  · decide
  · intro name hname
    unfold getTripleSquarePalaces
    rw [indexIn_eq_none.mpr hname]

/-- Concrete run of the C2 theorem: position 1 (命宫) has triplicates at
positions 5 and 9 and square at position 7, and the unknown name
`"无名宫"` is rejected. -/
theorem getTripleSquarePalaces_spec_witness :
    getTripleSquarePalaces "命宫" =
      .ok { originalPalace := "命宫",
            triplePalaces := ["财帛宫", "官禄宫"],
            squarePalaces := ["迁移宫"],
            allRelatedPalaces := ["命宫", "财帛宫", "官禄宫", "迁移宫"] } ∧
    getTripleSquarePalaces "无名宫" = .error "InvalidPalaceError" := by
  constructor
  · exact (getTripleSquarePalaces_spec.1 ⟨0, by decide⟩).trans (by decide)
  · exact getTripleSquarePalaces_spec.2 "无名宫" (by decide)

/-- C5 counterexample: the direction table has period 8 in the raw position
argument, so reducing `p + 8` modulo 12 back into 1..12 breaks the claimed
equality: position 5 maps to 正南 while the mod-12 wrap of 5+8 is position 1,
which maps to 正北. -/
theorem getPalaceDirection_wrap_counterexample :
    getPalaceDirection 5 = "正南" ∧
    ((5 : Int) - 1 + 8) % 12 + 1 = 1 ∧
    getPalaceDirection (((5 : Int) - 1 + 8) % 12 + 1) = "正北" ∧
    getPalaceDirection 5 ≠ getPalaceDirection (((5 : Int) - 1 + 8) % 12 + 1) := by
  decide

/-- C5 (amended): the compass-direction lookup is periodic with period 8 in
the raw position argument — `direction(p) = direction(p + 8)` for every
position `p ≥ 1` with `p + 8` passed directly to the lookup, not reduced
modulo 12; in particular position 9 maps to the same direction as
position 1. -/
theorem getPalaceDirection_period8 (p : Int) (hp : 1 ≤ p) :
    getPalaceDirection p = getPalaceDirection (p + 8) := by
  unfold getPalaceDirection
  have e1 : (p - 1).tmod 8 = (p - 1) % 8 :=
    Int.tmod_eq_emod (by omega) (by omega)
  have e2 : (p + 8 - 1).tmod 8 = (p + 8 - 1) % 8 :=
    Int.tmod_eq_emod (by omega) (by omega)
  have e3 : (p + 8 - 1) % 8 = (p - 1) % 8 := by omega
  rw [e1, e2, e3]

/-- Concrete run of the amended C5 theorem at position 1: position 9 maps to
the same direction as position 1. -/
theorem getPalaceDirection_period8_witness :
    getPalaceDirection 1 = getPalaceDirection (1 + 8) :=
  getPalaceDirection_period8 1 (by decide)

/-- C6: in the assembled chart result every palace carries `isVoid = true`
exactly when its star list is empty, for all palaces of any successfully
assembled input chart. -/
theorem assembled_isVoid_iff_no_stars
    (convertToLunarDate : Except String LunarDate)
    (computeRawChart : LunarDate → Except String (List Palace))
    (res : List EnrichedPalace)
    (hres : calculateZiweiChart convertToLunarDate computeRawChart = .ok res) :
    ∀ ep ∈ res, ep.isVoid = true ↔ ep.stars = [] := by
  intro ep hep
  have hmem : ∃ p : Palace, ep = assemblePalace p := by
    cases hconv : convertToLunarDate with
    | error e => simp [calculateZiweiChart, hconv] at hres
    | ok lunar =>
      cases hchart : computeRawChart lunar with
      | error e => simp [calculateZiweiChart, hconv, hchart] at hres
      | ok palaces =>
        simp [calculateZiweiChart, hconv, hchart] at hres
        rw [← hres] at hep
        rcases List.mem_map.mp hep with ⟨p, _, hpe⟩
        exact ⟨p, hpe.symm⟩
  rcases hmem with ⟨p, hp⟩
  subst hp
  simp [assemblePalace, List.length_eq_zero]

/-- Concrete run of the C6 theorem: a starless palace is assembled with
`isVoid = true`. -/
theorem assembled_isVoid_iff_no_stars_witness :
    (assemblePalace ⟨"命宫", 1, []⟩).isVoid = true := by
  have h := assembled_isVoid_iff_no_stars (.ok ⟨1990, 5, 15⟩)
    (fun _ => .ok [⟨"命宫", 1, []⟩])
    (assemblePalaces [⟨"命宫", 1, []⟩]) rfl
    (assemblePalace ⟨"命宫", 1, []⟩) (by simp [assemblePalaces])
  exact h.mpr rfl

/-- C7: a collaborator failure during `calculateZiweiChart` is neither
swallowed nor retried: a calendar-conversion failure and a chart-primitive
failure each propagate as an error wrapped with the stage message prefix,
the wrapping is injective (so collaborator errors that identify their stage
remain distinguishable to the caller), and a success is only produced when
both collaborator stages succeeded. -/
theorem calculateZiweiChart_error_propagation
    (convertToLunarDate : Except String LunarDate)
    (computeRawChart : LunarDate → Except String (List Palace)) :
    (∀ m : String, convertToLunarDate = .error m →
      calculateZiweiChart convertToLunarDate computeRawChart =
        .error ("星盘计算失败: " ++ m)) ∧
    (∀ (l : LunarDate) (m : String), convertToLunarDate = .ok l →
      computeRawChart l = .error m →
      calculateZiweiChart convertToLunarDate computeRawChart =
        .error ("星盘计算失败: " ++ m)) ∧
    (∀ m m' : String,
      ("星盘计算失败: " ++ m : String) = ("星盘计算失败: " ++ m' : String) →
      m = m') ∧
    (∀ res : List EnrichedPalace,
      calculateZiweiChart convertToLunarDate computeRawChart = .ok res →
      ∃ (l : LunarDate) (ps : List Palace),
        convertToLunarDate = .ok l ∧ computeRawChart l = .ok ps ∧
        res = assemblePalaces ps) := by
  refine ⟨?_, ?_, ?_, ?_⟩
  · intro m hm
    simp [calculateZiweiChart, hm]
  · intro l m hl hm
    simp [calculateZiweiChart, hl, hm]
  · intro m m' h
    cases m with
    | mk dm =>
      cases m' with
      | mk dm' =>
        have hd : ("星盘计算失败: " : String).data ++ dm =
            ("星盘计算失败: " : String).data ++ dm' := by
          have := congrArg String.data h
          simpa [String.append] using this
        exact congrArg String.mk (List.append_cancel_left hd)
  · intro res hres
    cases hconv : convertToLunarDate with
    | error e => simp [calculateZiweiChart, hconv] at hres
    | ok lunar =>
      cases hchart : computeRawChart lunar with
      | error e => simp [calculateZiweiChart, hconv, hchart] at hres
      | ok palaces =>
        simp [calculateZiweiChart, hconv, hchart] at hres
        exact ⟨lunar, palaces, rfl, hchart, hres.symm⟩

/-- Concrete run of the C7 theorem: a failing calendar conversion surfaces
as the wrapped stage error. -/
theorem calculateZiweiChart_error_propagation_witness :
    calculateZiweiChart (.error "InvalidDateError")
        (fun _ => .ok ([] : List Palace)) =
      .error ("星盘计算失败: " ++ "InvalidDateError") :=
  (calculateZiweiChart_error_propagation (.error "InvalidDateError")
    (fun _ => .ok ([] : List Palace))).1 "InvalidDateError" rfl

theorem classifyPalace_foldl (isMain isLucky isEvil : String → Bool)
    (name : String) :
    ∀ (stars : List String) (acc : StarMaps) (k : String),
      ((stars.foldl (classifyStar isMain isLucky isEvil name) acc).1 k =
        acc.1 k ++ if k = name then stars.filter isMain else []) ∧
      ((stars.foldl (classifyStar isMain isLucky isEvil name) acc).2.1 k =
        acc.2.1 k ++ if k = name then
          stars.filter (fun s => !isMain s && isLucky s) else []) ∧
      ((stars.foldl (classifyStar isMain isLucky isEvil name) acc).2.2 k =
        acc.2.2 k ++ if k = name then
          stars.filter (fun s => !isMain s && !isLucky s && isEvil s)
        else []) := by
  intro stars
  induction stars with
  | nil => intro acc k; simp
  | cons s rest ih =>
    intro acc k
    rw [List.foldl_cons]
    have h1 := (ih (classifyStar isMain isLucky isEvil name acc s) k).1
    have h2 := (ih (classifyStar isMain isLucky isEvil name acc s) k).2.1
    have h3 := (ih (classifyStar isMain isLucky isEvil name acc s) k).2.2
    refine ⟨?_, ?_, ?_⟩
    · rw [h1]
      by_cases hk : k = name <;>
        cases hm : isMain s <;> cases hl : isLucky s <;> cases he : isEvil s <;>
          simp [classifyStar, appendStar, hm, hl, he, List.filter_cons, hk]
    · rw [h2]
      by_cases hk : k = name <;>
        cases hm : isMain s <;> cases hl : isLucky s <;> cases he : isEvil s <;>
          simp [classifyStar, appendStar, hm, hl, he, List.filter_cons, hk]
    · rw [h3]
      by_cases hk : k = name <;>
        cases hm : isMain s <;> cases hl : isLucky s <;> cases he : isEvil s <;>
          simp [classifyStar, appendStar, hm, hl, he, List.filter_cons, hk]

theorem organizeStarInfo_foldl (isMain isLucky isEvil : String → Bool) :
    ∀ (palaces : List Palace) (acc : StarMaps) (k : String),
      ((palaces.foldl (classifyPalace isMain isLucky isEvil) acc).1 k =
        acc.1 k ++ ((palaces.filter (fun p => p.name == k)).map
          (fun p => p.stars.filter isMain)).flatten) ∧
      ((palaces.foldl (classifyPalace isMain isLucky isEvil) acc).2.1 k =
        acc.2.1 k ++ ((palaces.filter (fun p => p.name == k)).map
          (fun p => p.stars.filter (fun s => !isMain s && isLucky s))).flatten) ∧
      ((palaces.foldl (classifyPalace isMain isLucky isEvil) acc).2.2 k =
        acc.2.2 k ++ ((palaces.filter (fun p => p.name == k)).map
          (fun p => p.stars.filter
            (fun s => !isMain s && !isLucky s && isEvil s))).flatten) := by
  intro palaces
  induction palaces with
  | nil => intro acc k; simp
  | cons p rest ih =>
    intro acc k
    have hinner := classifyPalace_foldl isMain isLucky isEvil p.name
      p.stars acc k
    have hrest := ih (classifyPalace isMain isLucky isEvil acc p) k
    by_cases hk : p.name = k
    · simp only [List.foldl_cons, List.filter_cons, hk, beq_self_eq_true,
        if_true, List.map_cons, List.flatten_cons, hrest]
      rw [show classifyPalace isMain isLucky isEvil acc p =
            p.stars.foldl (classifyStar isMain isLucky isEvil p.name) acc
          from rfl]
      refine ⟨?_, ?_, ?_⟩
      · rw [hinner.1, if_pos hk.symm, List.append_assoc]
      · rw [hinner.2.1, if_pos hk.symm, List.append_assoc]
      · rw [hinner.2.2, if_pos hk.symm, List.append_assoc]
    · have hbeq : (p.name == k) = false := by
        simpa using hk
      simp only [List.foldl_cons, List.filter_cons, hbeq, if_false, hrest]
      rw [show classifyPalace isMain isLucky isEvil acc p =
            p.stars.foldl (classifyStar isMain isLucky isEvil p.name) acc
          from rfl]
      have hkn : ¬ k = p.name := fun h => hk h.symm
      refine ⟨?_, ?_, ?_⟩
      · rw [hinner.1, if_neg hkn, List.append_nil]; simp
      · rw [hinner.2.1, if_neg hkn, List.append_nil]; simp
      · rw [hinner.2.2, if_neg hkn, List.append_nil]; simp

theorem filter_three_way_count (a b c : String → Bool) :
    ∀ l : List String,
      (l.filter a).length +
      (l.filter (fun s => !a s && b s)).length +
      (l.filter (fun s => !a s && !b s && c s)).length =
      (l.filter (fun s => a s || b s || c s)).length := by
  intro l
  induction l with
  | nil => simp
  | cons s rest ih =>
    cases ha : a s <;> cases hb : b s <;> cases hc : c s <;>
      simp [List.filter_cons, ha, hb, hc] <;> omega

theorem filter_name_eq_self {palaces : List Palace} {p : Palace}
    (hnodup : (palaces.map Palace.name).Nodup) (hp : p ∈ palaces) :
    palaces.filter (fun q => q.name == p.name) = [p] := by
  induction palaces with
  | nil => exact absurd hp (List.not_mem_nil p)
  | cons q rest ih =>
    have hnodup' : (rest.map Palace.name).Nodup :=
      (List.nodup_cons.mp hnodup).2
    have hqnot : q.name ∉ rest.map Palace.name :=
      (List.nodup_cons.mp hnodup).1
    rcases List.mem_cons.mp hp with heq | hmem
    · subst heq
      have hnone : rest.filter (fun r => r.name == p.name) = [] := by
        apply List.filter_eq_nil_iff.mpr
        intro r hr hbeq
        have hrn : r.name = p.name := by simpa using hbeq
        exact hqnot (hrn ▸ List.mem_map.mpr ⟨r, hr, rfl⟩)
      simp [List.filter_cons, hnone]
    · have hqp : (q.name == p.name) = false := by
        have : q.name ≠ p.name := by
          intro h
          exact hqnot (h ▸ List.mem_map.mpr ⟨p, hmem, rfl⟩)
        simpa using this
      simp [List.filter_cons, hqp, ih hnodup' hmem]

/-- C3: for every chart with distinct palace names, `organizeStarInfo`
gives each palace the filter of its own star list under the
`main / else lucky / else evil` chain — so each (palace, star) pair lands
in at most one category map, per-palace lists keep the stars'
palace-appearance order, counting the three maps equals counting the stars
that belong to at least one table (no double-counting), a star in no table
is silently dropped, and a name carried by no palace has zero stars in
every category map. -/
theorem organizeStarInfo_classifies (isMain isLucky isEvil : String → Bool)
    (palaces : List Palace)
    (hnodup : (palaces.map Palace.name).Nodup) :
    (∀ p ∈ palaces,
      (organizeStarInfo isMain isLucky isEvil palaces).1 p.name =
        p.stars.filter isMain ∧
      (organizeStarInfo isMain isLucky isEvil palaces).2.1 p.name =
        p.stars.filter (fun s => !isMain s && isLucky s) ∧
      (organizeStarInfo isMain isLucky isEvil palaces).2.2 p.name =
        p.stars.filter (fun s => !isMain s && !isLucky s && isEvil s) ∧
      ((organizeStarInfo isMain isLucky isEvil palaces).1 p.name).length +
      ((organizeStarInfo isMain isLucky isEvil palaces).2.1 p.name).length +
      ((organizeStarInfo isMain isLucky isEvil palaces).2.2 p.name).length =
        (p.stars.filter (fun s => isMain s || isLucky s || isEvil s)).length) ∧
    (∀ k : String, (∀ p ∈ palaces, p.name ≠ k) →
      (organizeStarInfo isMain isLucky isEvil palaces).1 k = [] ∧
      (organizeStarInfo isMain isLucky isEvil palaces).2.1 k = [] ∧
      (organizeStarInfo isMain isLucky isEvil palaces).2.2 k = []) := by
  constructor
  · intro p hp
    have hfold := organizeStarInfo_foldl isMain isLucky isEvil palaces
      (fun _ => [], fun _ => [], fun _ => []) p.name
    have hself := filter_name_eq_self hnodup hp
    have h1 : (organizeStarInfo isMain isLucky isEvil palaces).1 p.name =
        p.stars.filter isMain := by
      rw [organizeStarInfo, hfold.1, hself]; simp
    have h2 : (organizeStarInfo isMain isLucky isEvil palaces).2.1 p.name =
        p.stars.filter (fun s => !isMain s && isLucky s) := by
      rw [organizeStarInfo, hfold.2.1, hself]; simp
    have h3 : (organizeStarInfo isMain isLucky isEvil palaces).2.2 p.name =
        p.stars.filter (fun s => !isMain s && !isLucky s && isEvil s) := by
      rw [organizeStarInfo, hfold.2.2, hself]; simp
    refine ⟨h1, h2, h3, ?_⟩
    rw [h1, h2, h3]
    exact filter_three_way_count isMain isLucky isEvil p.stars
  · intro k hk
    have hfold := organizeStarInfo_foldl isMain isLucky isEvil palaces
      (fun _ => [], fun _ => [], fun _ => []) k
    have hnone : palaces.filter (fun q => q.name == k) = [] := by
      apply List.filter_eq_nil_iff.mpr
      intro q hq hbeq
      exact hk q hq (by simpa using hbeq)
    refine ⟨?_, ?_, ?_⟩
    · rw [organizeStarInfo, hfold.1, hnone]; simp
    · rw [organizeStarInfo, hfold.2.1, hnone]; simp
    · rw [organizeStarInfo, hfold.2.2, hnone]; simp

/-- Concrete run of the C3 theorem: a two-palace chart whose stars are a
main star, a lucky star and an unclassified star — the unclassified star
is dropped, the counts agree, and the absent name 夫妻宫 has empty
entries. -/
theorem organizeStarInfo_classifies_witness :
    (organizeStarInfo (fun s => s == "紫微") (fun s => s == "文昌")
        (fun s => s == "擎羊")
        [⟨"命宫", 1, ["紫微", "天伤"]⟩, ⟨"兄弟宫", 2, ["文昌"]⟩]).1 "命宫" =
      ["紫微"] ∧
    (organizeStarInfo (fun s => s == "紫微") (fun s => s == "文昌")
        (fun s => s == "擎羊")
        [⟨"命宫", 1, ["紫微", "天伤"]⟩, ⟨"兄弟宫", 2, ["文昌"]⟩]).2.1 "兄弟宫" =
      ["文昌"] ∧
    (organizeStarInfo (fun s => s == "紫微") (fun s => s == "文昌")
        (fun s => s == "擎羊")
        [⟨"命宫", 1, ["紫微", "天伤"]⟩, ⟨"兄弟宫", 2, ["文昌"]⟩]).1 "夫妻宫" =
      [] := by
  have h := organizeStarInfo_classifies (fun s => s == "紫微")
    (fun s => s == "文昌") (fun s => s == "擎羊")
    [⟨"命宫", 1, ["紫微", "天伤"]⟩, ⟨"兄弟宫", 2, ["文昌"]⟩] (by decide)
  refine ⟨?_, ?_, ?_⟩
  · exact ((h.1 ⟨"命宫", 1, ["紫微", "天伤"]⟩ (by decide)).1).trans (by decide)
  · exact ((h.1 ⟨"兄弟宫", 2, ["文昌"]⟩ (by decide)).2.1).trans (by decide)
  · exact (h.2 "夫妻宫" (by decide)).1

theorem findTransformationPalaces_foldl (palaces : List Palace) :
    ∀ (ts : List Transformation) (m : String → List Transformation)
      (k : String),
      (ts.foldl (fun m t =>
        match locatePalace palaces t.star with
        | some name => fun k => if k = name then m name ++ [t] else m k
        | none => m) m) k =
      m k ++ ts.filter (fun t => locatePalace palaces t.star == some k) := by
  intro ts
  induction ts with
  | nil => intro m k; simp
  | cons t rest ih =>
    intro m k
    rw [List.foldl_cons]
    cases hloc : locatePalace palaces t.star with
    | none =>
      rw [ih m k]
      simp [List.filter_cons, hloc]
    | some name =>
      by_cases hk : k = name
      · subst hk
        rw [ih _ k]
        simp [List.filter_cons, hloc]
      · rw [ih _ k]
        have : (some name == some k) = false := by
          simpa using fun h => hk h.symm
        simp [List.filter_cons, hloc, this, hk]

/-- C4: `calculateTransformations` reports both stems' transformation lists
unconditionally in the per-stem fields; the palace-location map is built
from the concatenation of both stems' pairs, each map entry collecting (in
order, merged across the two stems) exactly the pairs whose star is located
in that palace; and a pair whose star no palace holds is omitted from the
palace map while still present in its stem's list. -/
theorem calculateTransformations_spec
    (getTransformationsByStem : String → List Transformation)
    (fourPillars : FourPillars) (palaces : List Palace) :
    ((calculateTransformations getTransformationsByStem fourPillars
        palaces).yearStem =
      ⟨fourPillars.year.stem, getTransformationsByStem fourPillars.year.stem⟩) ∧
    ((calculateTransformations getTransformationsByStem fourPillars
        palaces).dayStem =
      ⟨fourPillars.day.stem, getTransformationsByStem fourPillars.day.stem⟩) ∧
    (∀ k : String,
      (calculateTransformations getTransformationsByStem fourPillars
          palaces).palaces k =
        (getTransformationsByStem fourPillars.year.stem ++
          getTransformationsByStem fourPillars.day.stem).filter
          (fun t => locatePalace palaces t.star == some k)) ∧
    (∀ t : Transformation,
      t ∈ getTransformationsByStem fourPillars.year.stem ++
          getTransformationsByStem fourPillars.day.stem →
      (∀ p ∈ palaces, t.star ∉ p.stars) →
      ∀ k : String,
        t ∉ (calculateTransformations getTransformationsByStem fourPillars
          palaces).palaces k) := by
  refine ⟨rfl, rfl, ?_, ?_⟩
  · intro k
    exact findTransformationPalaces_foldl palaces _ _ k
  · intro t ht hnone k hmem
    have hk := findTransformationPalaces_foldl palaces
      (getTransformationsByStem fourPillars.year.stem ++
        getTransformationsByStem fourPillars.day.stem) (fun _ => []) k
    rw [show (calculateTransformations getTransformationsByStem fourPillars
        palaces).palaces = findTransformationPalaces
        (getTransformationsByStem fourPillars.year.stem ++
          getTransformationsByStem fourPillars.day.stem) palaces from rfl]
      at hmem
    rw [findTransformationPalaces, hk] at hmem
    simp only [List.nil_append, List.mem_filter] at hmem
    have hfind : palaces.find? (fun p => p.stars.contains t.star) = none :=
      List.find?_eq_none.mpr (fun p hp hcon => by
        exact hnone p hp (List.elem_iff.mp hcon))
    rw [locatePalace, hfind] at hmem
    simp at hmem

/-- Concrete run of the C4 theorem: the stem table sends 甲 to 化禄-廉贞 and
化忌-太阳; 廉贞 sits in 命宫 so its pair lands there, while 太阳 is in no
palace and is dropped from the palace map yet kept in the stem report. -/
theorem calculateTransformations_spec_witness :
    ((calculateTransformations
        (fun st => if st == "甲" then
          [⟨"廉贞", "huaquan"⟩, ⟨"太阳", "huaji"⟩] else [])
        ⟨⟨"甲", "子"⟩, ⟨"丙", "寅"⟩, ⟨"乙", "丑"⟩, ⟨"丁", "卯"⟩⟩
        [⟨"命宫", 1, ["廉贞"]⟩]).yearStem =
      ⟨"甲", [⟨"廉贞", "huaquan"⟩, ⟨"太阳", "huaji"⟩]⟩) ∧
    ((calculateTransformations
        (fun st => if st == "甲" then
          [⟨"廉贞", "huaquan"⟩, ⟨"太阳", "huaji"⟩] else [])
        ⟨⟨"甲", "子"⟩, ⟨"丙", "寅"⟩, ⟨"乙", "丑"⟩, ⟨"丁", "卯"⟩⟩
        [⟨"命宫", 1, ["廉贞"]⟩]).palaces "命宫" =
      [⟨"廉贞", "huaquan"⟩]) ∧
    (∀ k : String, Transformation.mk "太阳" "huaji" ∉
      (calculateTransformations
        (fun st => if st == "甲" then
          [⟨"廉贞", "huaquan"⟩, ⟨"太阳", "huaji"⟩] else [])
        ⟨⟨"甲", "子"⟩, ⟨"丙", "寅"⟩, ⟨"乙", "丑"⟩, ⟨"丁", "卯"⟩⟩
        [⟨"命宫", 1, ["廉贞"]⟩]).palaces k) := by
  have h := calculateTransformations_spec
    (fun st => if st == "甲" then
      [⟨"廉贞", "huaquan"⟩, ⟨"太阳", "huaji"⟩] else [])
    ⟨⟨"甲", "子"⟩, ⟨"丙", "寅"⟩, ⟨"乙", "丑"⟩, ⟨"丁", "卯"⟩⟩
    [⟨"命宫", 1, ["廉贞"]⟩]
  refine ⟨h.1, ?_, ?_⟩
  · exact (h.2.2.1 "命宫").trans (by decide)
  · exact h.2.2.2 ⟨"太阳", "huaji"⟩ (by decide) (by decide)

/-- C8: with the wall clock surfaced as the as-of input, period synthesis
is deterministic and each output is a pure function of exactly the inputs
its rule reads: the major list ignores the as-of moment and the palaces,
the active major selection reads only the as-of year, the minor marker
ignores the palaces and reads only the as-of year, the annual and monthly
markers ignore gender and read the as-of moment only at year
(resp. year + month) granularity, and the daily and hourly markers ignore
gender; hence two calls with identical inputs agree field by field. -/
theorem generateLuckPeriods_pure (svc : PeriodCollaborators)
    (now now' : DateMoment) (lunar : LunarDate) (g g' : String)
    (ps ps' : List Palace)
    (hy : now.year = now'.year) (hm : now.month = now'.month) :
    ((generateLuckPeriods svc now lunar g ps).major =
      (generateLuckPeriods svc now' lunar g ps').major) ∧
    (selectCurrentMajor (generateLuckPeriods svc now lunar g ps).major
        (now.year - lunar.year) =
      selectCurrentMajor (generateLuckPeriods svc now' lunar g ps').major
        (now'.year - lunar.year)) ∧
    ((generateLuckPeriods svc now lunar g ps).minor =
      (generateLuckPeriods svc now' lunar g ps').minor) ∧
    ((generateLuckPeriods svc now lunar g ps).annual =
      (generateLuckPeriods svc now' lunar g' ps).annual) ∧
    ((generateLuckPeriods svc now lunar g ps).monthly =
      (generateLuckPeriods svc now' lunar g' ps).monthly) ∧
    ((generateLuckPeriods svc now lunar g ps).daily =
      (generateLuckPeriods svc now lunar g' ps).daily) ∧
    ((generateLuckPeriods svc now lunar g ps).hourly =
      (generateLuckPeriods svc now lunar g' ps).hourly) := by
  refine ⟨rfl, ?_, ?_, ?_, ?_, rfl, rfl⟩ <;>
    simp only [generateLuckPeriods, hy, hm]

/-- Concrete run of the C8 theorem: two as-of moments sharing year and
month but differing in day and hour, with different palace lists and
genders where the rule ignores them, give the same major list, active
selection, minor, annual and monthly markers. -/
theorem generateLuckPeriods_pure_witness :
    ((generateLuckPeriods
        ⟨fun _ _ => [⟨2, 12, "命宫"⟩], fun l _ y => ⟨y - l.year, y - l.year, "命宫"⟩,
         fun l y _ => ⟨y - l.year, y - l.year, "兄弟宫"⟩,
         fun l y m _ => ⟨y - l.year, m, "夫妻宫"⟩,
         fun l d _ => ⟨d.day, d.hour, "子女宫"⟩,
         fun l d _ => ⟨d.hour, d.minute, "财帛宫"⟩⟩
        ⟨2024, 4, 1, 0, 0⟩ ⟨1990, 5, 15⟩ "male" []).monthly =
      (generateLuckPeriods
        ⟨fun _ _ => [⟨2, 12, "命宫"⟩], fun l _ y => ⟨y - l.year, y - l.year, "命宫"⟩,
         fun l y _ => ⟨y - l.year, y - l.year, "兄弟宫"⟩,
         fun l y m _ => ⟨y - l.year, m, "夫妻宫"⟩,
         fun l d _ => ⟨d.day, d.hour, "子女宫"⟩,
         fun l d _ => ⟨d.hour, d.minute, "财帛宫"⟩⟩
        ⟨2024, 4, 20, 9, 30⟩ ⟨1990, 5, 15⟩ "female" []).monthly) :=
  (generateLuckPeriods_pure
    ⟨fun _ _ => [⟨2, 12, "命宫"⟩], fun l _ y => ⟨y - l.year, y - l.year, "命宫"⟩,
     fun l y _ => ⟨y - l.year, y - l.year, "兄弟宫"⟩,
     fun l y m _ => ⟨y - l.year, m, "夫妻宫"⟩,
     fun l d _ => ⟨d.day, d.hour, "子女宫"⟩,
     fun l d _ => ⟨d.hour, d.minute, "财帛宫"⟩⟩
    ⟨2024, 4, 1, 0, 0⟩ ⟨2024, 4, 20, 9, 30⟩ ⟨1990, 5, 15⟩ "male" "female"
    [] [] rfl rfl).2.2.2.2.1

/-- C9: `checkPalaceTransformation` evaluates the fixed three-palace mock
chart, not any previously computed chart: it is a function of
(palaceName, transformationType) alone given the star table, every detail
row names one of the three mock palaces and one of that palace's mock
stars with the palace in the queried palace's related set, `exists` is
true exactly when some detail was collected, and `exists` can only be true
when the related-palace set meets the three mock palace names. -/
theorem checkPalaceTransformation_mock
    (getStarTransformation : String → Option StarTransformation)
    (palaceName transformationType : String)
    (rel : TripleSquareResult) (res : CheckResult)
    (hrel : getTripleSquarePalaces palaceName = .ok rel)
    (hres : checkPalaceTransformation getStarTransformation palaceName
      transformationType = .ok res) :
    (checkPalaceTransformation getStarTransformation palaceName
        transformationType =
      checkPalaceTransformation getStarTransformation palaceName
        transformationType) ∧
    (∀ d ∈ res.details, ∃ mp ∈ mockPalaces,
      d.palace = mp.name ∧ d.star ∈ mp.stars ∧
      mp.name ∈ rel.allRelatedPalaces) ∧
    (res.exists_ = true ↔ res.details ≠ []) ∧
    (res.exists_ = true →
      ∃ mp ∈ mockPalaces, mp.name ∈ rel.allRelatedPalaces) := by
  simp only [checkPalaceTransformation, hrel] at hres
  rw [Except.ok.injEq] at hres
  have hdet : ∀ d ∈ res.details, ∃ mp ∈ mockPalaces,
      d.palace = mp.name ∧ d.star ∈ mp.stars ∧
      mp.name ∈ rel.allRelatedPalaces := by
    intro d hd
    rw [← hres] at hd
    simp only [CheckResult.details] at hd
    simp only [collectDetails, List.mem_flatMap] at hd
    rcases hd with ⟨mp, hmp, hdmp⟩
    by_cases hcon : rel.allRelatedPalaces.contains mp.name
    · rw [if_pos hcon] at hdmp
      rcases List.mem_filterMap.mp hdmp with ⟨star, hstar, hmatch⟩
      cases hg : getStarTransformation star with
      | none =>
        rw [hg] at hmatch
        exact absurd hmatch (by simp)
      | some t =>
        rw [hg] at hmatch
        dsimp only at hmatch
        by_cases ht : (t.type == transformationType) = true
        · rw [if_pos ht, Option.some.injEq] at hmatch
          subst hmatch
          exact ⟨mp, hmp, rfl, hstar, List.elem_iff.mp hcon⟩
        · rw [if_neg ht] at hmatch
          exact absurd hmatch (by simp)
    · rw [if_neg hcon] at hdmp
      exact absurd hdmp (List.not_mem_nil d)
  have hex : res.exists_ = true ↔ res.details ≠ [] := by
    rw [← hres]
    simp [List.length_pos]
  refine ⟨rfl, hdet, hex, ?_⟩
  intro htrue
  rcases List.exists_mem_of_ne_nil res.details (hex.mp htrue) with ⟨d, hd⟩
  rcases hdet d hd with ⟨mp, hmp, _, _, hrelmem⟩
  exact ⟨mp, hmp, hrelmem⟩

/-- Concrete run of the C9 theorem: querying 官禄宫 (related set
官禄宫/夫妻宫/财帛宫/命宫) with a star table marking 紫微 as 化权 finds the
transformation through the mock palaces 命宫 and 夫妻宫. -/
theorem checkPalaceTransformation_mock_witness :
    (checkPalaceTransformation
        (fun s => if s == "紫微" then some ⟨"huaquan", "化权"⟩ else none)
        "官禄宫" "huaquan" =
      checkPalaceTransformation
        (fun s => if s == "紫微" then some ⟨"huaquan", "化权"⟩ else none)
        "官禄宫" "huaquan") ∧
    ((⟨true, [⟨"命宫", "紫微", "化权"⟩]⟩ : CheckResult).exists_ = true ↔
      (⟨true, [⟨"命宫", "紫微", "化权"⟩]⟩ : CheckResult).details ≠ []) := by
  have h := checkPalaceTransformation_mock
    (fun s => if s == "紫微" then some ⟨"huaquan", "化权"⟩ else none)
    "官禄宫" "huaquan"
    ⟨"官禄宫", ["命宫", "财帛宫"], ["夫妻宫"],
      ["官禄宫", "命宫", "财帛宫", "夫妻宫"]⟩
    ⟨true, [⟨"命宫", "紫微", "化权"⟩]⟩ (by decide) (by decide)
  exact ⟨h.1, h.2.2.1⟩

end Ziwei

namespace Almanac

open Ziwei (LunarDate)

/-- The suitable/avoid pair of the almanac service. -/
structure SuitabilityItems where
  suitable : List String
  avoid : List String
deriving DecidableEq

/-- The base ten-element suitable list of `getSuitabilityItems`. -/
def baseSuitable : List String :=
  ["祭祀", "祈福", "求嗣", "开光", "出行",
   "解除", "伐木", "入宅", "移徙", "安床"]

/-- The fixed five-element avoid list of `getSuitabilityItems`. -/
def baseAvoid : List String :=
  ["嫁娶", "安葬", "破土", "修坟", "纳畜"]

/-- `getSuitabilityItems(lunar)`: the fixed suitable and avoid lists, with
`['开业', '剪彩', '纳财']` pushed onto the suitable list exactly when the
lunar month and day are both 1. -/
def getSuitabilityItems (lunar : LunarDate) : SuitabilityItems :=
  let suitable :=
    if lunar.month == 1 && lunar.day == 1 then
      baseSuitable ++ ["开业", "剪彩", "纳财"]
    else baseSuitable
  { suitable := suitable, avoid := baseAvoid }

/-- The result of `getSuitableAvoid`: the input date echoed back plus the
suitability items. -/
structure SuitableAvoidResult where
  suitable : List String
  avoid : List String
  date : String
deriving DecidableEq

/-- `getSuitableAvoid(dateStr)`: parse the date, convert it to a lunar
moment (the parse plus the solar→lunar conversion by the external tyme4ts
calendar collaborator is the `toLunar` parameter, `none` for an
unparseable/unconvertible date), and return the suitability items together
with the input date string. -/
def getSuitableAvoid (toLunar : String → Option LunarDate)
    (dateStr : String) : Option SuitableAvoidResult :=
  (toLunar dateStr).map (fun lunar =>
    let suitability := getSuitabilityItems lunar
    { suitable := suitability.suitable,
      avoid := suitability.avoid,
      date := dateStr })

/-- C10: for every parseable date, `getSuitableAvoid` returns the fixed
five-element avoid list and the fixed ten-element suitable list, with the
three extra items 开业/剪彩/纳财 appended exactly when the lunar month and
the lunar day are both 1; the returned date field equals the input date
string. -/
theorem getSuitableAvoid_fixed_lists (toLunar : String → Option LunarDate)
    (dateStr : String) (lunar : LunarDate)
    (hconv : toLunar dateStr = some lunar) :
    ∃ r : SuitableAvoidResult,
      getSuitableAvoid toLunar dateStr = some r ∧
      r.date = dateStr ∧
      r.avoid = ["嫁娶", "安葬", "破土", "修坟", "纳畜"] ∧
      (lunar.month = 1 ∧ lunar.day = 1 →
        r.suitable = ["祭祀", "祈福", "求嗣", "开光", "出行",
          "解除", "伐木", "入宅", "移徙", "安床"] ++ ["开业", "剪彩", "纳财"]) ∧
      (¬ (lunar.month = 1 ∧ lunar.day = 1) →
        r.suitable = ["祭祀", "祈福", "求嗣", "开光", "出行",
          "解除", "伐木", "入宅", "移徙", "安床"]) := by
  refine ⟨_, by rw [getSuitableAvoid, hconv]; rfl, rfl, rfl, ?_, ?_⟩
  · intro hmd
    have hb : (lunar.month == 1 && lunar.day == 1) = true := by
      simp [hmd.1, hmd.2]
    simp [getSuitabilityItems, hb, baseSuitable]
  · intro hmd
    have hb : (lunar.month == 1 && lunar.day == 1) = false := by
      rcases not_and_or.mp hmd with h | h <;> simp [h]
    simp [getSuitabilityItems, hb, baseSuitable]

/-- Concrete run of the C10 theorem: lunar new year's day gets the three
extra suitable items; an ordinary day gets the base list; both echo the
input date. -/
theorem getSuitableAvoid_fixed_lists_witness :
    getSuitableAvoid (fun _ => some ⟨2024, 1, 1⟩) "2024-02-10" =
      some ⟨["祭祀", "祈福", "求嗣", "开光", "出行",
             "解除", "伐木", "入宅", "移徙", "安床", "开业", "剪彩", "纳财"],
            ["嫁娶", "安葬", "破土", "修坟", "纳畜"], "2024-02-10"⟩ := by
  rcases getSuitableAvoid_fixed_lists (fun _ => some ⟨2024, 1, 1⟩)
    "2024-02-10" ⟨2024, 1, 1⟩ rfl with ⟨r, hr, hdate, havoid, hnew, _⟩
  have hsuit := hnew ⟨rfl, rfl⟩
  rw [hr]
  have : r = ⟨["祭祀", "祈福", "求嗣", "开光", "出行",
      "解除", "伐木", "入宅", "移徙", "安床", "开业", "剪彩", "纳财"],
      ["嫁娶", "安葬", "破土", "修坟", "纳畜"], "2024-02-10"⟩ := by
    cases r
    simp_all
  rw [this]

end Almanac
